import Mathlib

/-!
Verification development for the Mini-project healthcare assistant.

The definitions below are a shallow embedding of the state-manipulating
logic of the React components under src/src/components (HealthcareChat,
MedicineAnalyzer, MedicalImageAnalyzer, DrugInteraction) and of the
medical-term explainer component. Asynchronous handlers are embedded as
pure functions from their inputs (component state plus the outcomes of
the external AI calls, which are opaque collaborators) to the resulting
component state. Timestamps and message ids are modelled as naturals.
-/

/-- Model of the JavaScript String.prototype.trim call used throughout the
components: whitespace is stripped from both ends of the string. -/
def jsTrim (s : String) : String :=
  String.mk (((s.data.dropWhile Char.isWhitespace).reverse.dropWhile
    Char.isWhitespace).reverse)

/-- Role of a chat message, from the Message interface in HealthcareChat.tsx. -/
inductive Role where
  | user
  | assistant
deriving DecidableEq, Repr

/-- Message record from HealthcareChat.tsx (interface Message). The optional
field isStreaming defaults to false, matching an absent field in the source. -/
structure Message where
  id : Nat
  role : Role
  content : String
  timestamp : Nat
  isStreaming : Bool := false
deriving DecidableEq, Repr

/-- Component state of HealthcareChat that the claims are about: the
transcript, the input box and the in-flight flag isLoading. -/
structure ChatState where
  messages : List Message
  input : String
  isLoading : Bool
deriving DecidableEq, Repr

/-- Lookup of a message by its id in a transcript. -/
def msgById (msgs : List Message) (i : Nat) : Option Message :=
  msgs.find? (fun m => m.id == i)

/-- Model of Array.prototype.findIndex over message ids, as used by
handleSaveEditedMessage (a -1 result is modelled as none). -/
def findIndexById : List Message → Nat → Option Nat
  | [], _ => none
  | m :: ms, i => if m.id = i then some 0 else (findIndexById ms i).map (· + 1)

/-- Literal failure notice appended by the catch branches of handleSubmit and
handleSaveEditedMessage in HealthcareChat.tsx. -/
def chatErrorNotice : String := "âš ï¸ Sorry, I encountered an error. Please try again."

/-- Literal cancellation marker text used by handleCancel in HealthcareChat.tsx
when the streaming message has accumulated no content yet. -/
def cancelNotice : String := "âŒ Response cancelled"

/-- User message constructed by handleSubmit from the trimmed input. -/
def mkUserMessage (i ts : Nat) (text : String) : Message :=
  { id := i, role := Role.user, content := text, timestamp := ts }

/-- Assistant placeholder created for streaming by handleSubmit and
handleSaveEditedMessage (content empty, isStreaming true). -/
def mkAssistantPlaceholder (i ts : Nat) : Message :=
  { id := i, role := Role.assistant, content := "", timestamp := ts, isStreaming := true }

/-- Failure notice message appended by the catch branch of handleSubmit. -/
def errorMessage (i ts : Nat) : Message :=
  { id := i, role := Role.assistant, content := chatErrorNotice, timestamp := ts }

/-- Synchronous prefix of handleSubmit in HealthcareChat.tsx: the guard
returns unchanged state when the trimmed input is empty or a request is in
flight; otherwise the user message is appended, the input cleared, isLoading
set and the streaming assistant placeholder appended. -/
def handleSubmitStart (s : ChatState) (userId aiId ts : Nat) : ChatState :=
  if jsTrim s.input = "" ∨ s.isLoading = true then s
  else
    { messages := s.messages ++ [mkUserMessage userId ts (jsTrim s.input),
        mkAssistantPlaceholder aiId ts],
      input := "",
      isLoading := true }

/-- One submission attempt: the text typed for the attempt together with the
fresh identifiers and timestamp the handler would draw. -/
structure SubmitEvent where
  text : String
  userId : Nat
  aiId : Nat
  ts : Nat

/-- A submission attempt places its text in the input box and invokes the
handleSubmit guard and synchronous prefix. -/
def submitAttempt (s : ChatState) (e : SubmitEvent) : ChatState :=
  handleSubmitStart { s with input := e.text } e.userId e.aiId e.ts

/-- A whole sequence of submission attempts, in order. -/
def submitAll (s : ChatState) (es : List SubmitEvent) : ChatState :=
  es.foldl submitAttempt s

/-- Chunk application from the streaming loop of handleSubmit: the message
with the placeholder id gets the accumulated response as content and keeps
isStreaming true; every other message is untouched. -/
def applyChunk (aiId : Nat) (fullResponse : String) (msgs : List Message) : List Message :=
  msgs.map (fun m =>
    if m.id = aiId then { m with content := fullResponse, isStreaming := true } else m)

/-- The streaming loop of handleSubmit: fullResponse accumulates each chunk
and the transcript is rewritten with the accumulated content every chunk. -/
def runChunks (aiId : Nat) : String → List Message → List String → String × List Message
  | acc, msgs, [] => (acc, msgs)
  | acc, msgs, c :: cs => runChunks aiId (acc ++ c) (applyChunk aiId (acc ++ c) msgs) cs

/-- Concatenation of a chunk list in arrival order. -/
def concatChunks : List String → String
  | [] => ""
  | c :: cs => c ++ concatChunks cs

/-- Completion step after the chunk loop of handleSubmit ends normally:
the placeholder message has isStreaming set to false. -/
def finishStream (aiId : Nat) (msgs : List Message) : List Message :=
  msgs.map (fun m => if m.id = aiId then { m with isStreaming := false } else m)

/-- Catch branch of handleSubmit in HealthcareChat.tsx: the placeholder is
filtered out of the transcript, a fresh assistant failure message is appended,
and the finally branch clears isLoading. -/
def failStream (s : ChatState) (aiId errId ts : Nat) : ChatState :=
  { s with
    isLoading := false,
    messages := (s.messages.filter (fun m => m.id != aiId)) ++ [errorMessage errId ts] }

/-- Transcript part of handleCancel in HealthcareChat.tsx: every streaming
message keeps its content when non-empty (the JavaScript truthiness test
msg.content || marker), is given the cancellation marker otherwise, and has
isStreaming set to false. -/
def cancelMessages (msgs : List Message) : List Message :=
  msgs.map (fun m =>
    if m.isStreaming then
      { m with
        content := (if m.content = "" then cancelNotice else m.content),
        isStreaming := false }
    else m)

/-- The handleCancel handler of HealthcareChat.tsx: the transport is told to
stop, isLoading is cleared and the streaming message is marked cancelled. -/
def handleCancel (s : ChatState) : ChatState :=
  { s with isLoading := false, messages := cancelMessages s.messages }

/-- Modelled from the spec: cancelCurrentRequest lives in src/lib/gemini.ts,
which is not present under src/. Sections 4.3 and 5 of the spec state that the
cancelled transport stops producing further chunks and that stale chunk
deliveries are discarded, so the list of chunks delivered to the loop after a
cancellation is empty. -/
def chunksAfterCancel : List String := []

/-- Truncation part of handleSaveEditedMessage in HealthcareChat.tsx: the
transcript is cut after the edited message (slice up to the found index,
inclusive) and that message gets the new content and a fresh timestamp. An
unknown id leaves the transcript unchanged. -/
def editTruncate (msgs : List Message) (messageId : Nat) (newContent : String)
    (now : Nat) : List Message :=
  match findIndexById msgs messageId with
  | none => msgs
  | some idx =>
    match msgs[idx]? with
    | none => msgs
    | some m =>
      (msgs.take (idx + 1)).set idx { m with content := newContent, timestamp := now }

/-- Synchronous prefix of handleSaveEditedMessage: the transcript is truncated
and updated, isLoading set, and a fresh streaming assistant placeholder
appended for the regeneration. -/
def handleSaveEditedMessage (s : ChatState) (messageId : Nat) (newContent : String)
    (now aiId : Nat) : ChatState :=
  { messages := editTruncate s.messages messageId newContent now
      ++ [mkAssistantPlaceholder aiId now],
    input := s.input,
    isLoading := true }

/-- Conversation context actually sent by handleSaveEditedMessage to the
streaming call: the pre-edit transcript captured by the callback closure,
filtered only by msg.id !== messageId. -/
def conversationHistory (msgs : List Message) (messageId : Nat) : List Message :=
  msgs.filter (fun m => m.id != messageId)

/-- Formalisation of the claim wording for the edit regeneration context:
the truncated history, that is the messages remaining in the transcript
strictly before the edited message. -/
def truncatedHistorySpec (msgs : List Message) (messageId : Nat) : List Message :=
  msgs.takeWhile (fun m => m.id != messageId)

/-- Concrete five-message transcript u1, a1, u2, a2, u3 used as a test input. -/
def exU1 : Message := { id := 1, role := Role.user, content := "u1", timestamp := 10 }

/-- Concrete assistant message a1 of the five-message transcript. -/
def exA1 : Message := { id := 2, role := Role.assistant, content := "a1", timestamp := 11 }

/-- Concrete user message u2 of the five-message transcript, the edit target. -/
def exU2 : Message := { id := 3, role := Role.user, content := "u2", timestamp := 12 }

/-- Concrete assistant message a2 of the five-message transcript. -/
def exA2 : Message := { id := 4, role := Role.assistant, content := "a2", timestamp := 13 }

/-- Concrete user message u3 of the five-message transcript. -/
def exU3 : Message := { id := 5, role := Role.user, content := "u3", timestamp := 14 }

example : jsTrim "  hi " = "hi" := by decide
example : handleSubmitStart { messages := [], input := "hi", isLoading := false } 1 2 0
    = { messages := [mkUserMessage 1 0 "hi", mkAssistantPlaceholder 2 0],
        input := "", isLoading := true } := by decide
example : editTruncate [exU1, exA1, exU2, exA2, exU3] 3 "new" 99
    = [exU1, exA1, { exU2 with content := "new", timestamp := 99 }] := by decide
example : conversationHistory [exU1, exA1, exU2, exA2, exU3] 3
    = [exU1, exA1, exA2, exU3] := by decide
example : truncatedHistorySpec [exU1, exA1, exU2, exA2, exU3] 3 = [exU1, exA1] := by decide

/-- Validation result shape returned by the validity calls (isValid plus a
user-facing message), from the gemini module interface. -/
structure ValidationResult where
  isValid : Bool
  message : String
deriving DecidableEq, Repr

/-- Observable outcome of one handleAnalyze run in the analyzer components:
whether the structured analysis call was issued, the error text shown, and
the final loading flag. -/
structure AnalyzerOutcome where
  analyzeCalled : Bool
  error : String
  loading : Bool
deriving DecidableEq, Repr

/-- Literal error shown by MedicineAnalyzer.handleAnalyze when no image is set. -/
def medNoImageError : String := "Please upload an image of the medicine"

/-- Literal error shown by MedicineAnalyzer.handleAnalyze when a validation
warning from the upload pre-check is present. -/
def medWarningBlockError : String :=
  "Cannot analyze non-medicine images. Please upload a valid medicine image (tablets, capsules, bottles, packaging, etc.)."

/-- Literal suffix appended to the validation message when the final check of
MedicineAnalyzer.handleAnalyze rejects the image. -/
def medRejectSuffix : String :=
  "\n\nPlease upload a clear image of medicine packaging, tablets, capsules, or medicine bottles."

/-- Literal error shown by the catch branch of MedicineAnalyzer.handleAnalyze. -/
def medAnalyzeFailError : String := "Failed to analyze medicine. Please try again."

/-- The handleAnalyze handler of MedicineAnalyzer.tsx, embedded over its
inputs: whether an image is set, the current validation warning from the
upload pre-check, the outcome of the final validity call (none models the
call throwing, caught by the catch branch) and whether the analysis call
itself fails. -/
def handleAnalyzeMedicine (hasImage : Bool) (validationWarning : String)
    (finalValidation : Option ValidationResult) (analyzeFails : Bool) : AnalyzerOutcome :=
  if hasImage = false then
    { analyzeCalled := false, error := medNoImageError, loading := false }
  else if validationWarning ≠ "" then
    { analyzeCalled := false, error := medWarningBlockError, loading := false }
  else
    match finalValidation with
    | none =>
      { analyzeCalled := false, error := medAnalyzeFailError, loading := false }
    | some v =>
      if v.isValid = false then
        { analyzeCalled := false, error := v.message ++ medRejectSuffix, loading := false }
      else if analyzeFails then
        { analyzeCalled := true, error := medAnalyzeFailError, loading := false }
      else
        { analyzeCalled := true, error := "", loading := false }

/-- Literal error shown by MedicalImageAnalyzer.handleAnalyze when no image
is set. -/
def miNoImageError : String := "Please upload a medical image"

/-- Literal error shown by MedicalImageAnalyzer.handleAnalyze when a
validation warning from the upload pre-check is present. -/
def miWarningBlockError : String :=
  "Cannot analyze non-medical images. Please upload a valid medical image (X-ray, CT scan, MRI, ultrasound, ECG, etc.)."

/-- Literal suffix appended to the validation message when the final check of
MedicalImageAnalyzer.handleAnalyze rejects the image. -/
def miRejectSuffix : String :=
  "\n\nPlease upload a valid medical image such as X-rays, CT scans, MRI, ultrasound, or ECG images."

/-- Literal error shown by the catch branch of MedicalImageAnalyzer.handleAnalyze. -/
def miAnalyzeFailError : String := "Failed to analyze medical image. Please try again."

/-- The handleAnalyze handler of MedicalImageAnalyzer.tsx, embedded the same
way as the MedicineAnalyzer one; the control flow of the two is identical,
only the literals differ. -/
def handleAnalyzeMedicalImage (hasImage : Bool) (validationWarning : String)
    (finalValidation : Option ValidationResult) (analyzeFails : Bool) : AnalyzerOutcome :=
  if hasImage = false then
    { analyzeCalled := false, error := miNoImageError, loading := false }
  else if validationWarning ≠ "" then
    { analyzeCalled := false, error := miWarningBlockError, loading := false }
  else
    match finalValidation with
    | none =>
      { analyzeCalled := false, error := miAnalyzeFailError, loading := false }
    | some v =>
      if v.isValid = false then
        { analyzeCalled := false, error := v.message ++ miRejectSuffix, loading := false }
      else if analyzeFails then
        { analyzeCalled := true, error := miAnalyzeFailError, loading := false }
      else
        { analyzeCalled := true, error := "", loading := false }

/-- The validateUploadedImage pre-check shared verbatim by MedicineAnalyzer.tsx
and MedicalImageAnalyzer.tsx: a returned result sets or clears the validation
warning, while a thrown error (none) is only logged and leaves the warning as
it was (the components cleared it on upload just before). -/
def validateUploadedImage (prevWarning : String) (result : Option ValidationResult) : String :=
  match result with
  | none => prevWarning
  | some v => if v.isValid then "" else v.message

/-- Observable outcome of one handleExplain run of the medical term explainer
component: whether explainMedicalTerm was invoked, the error text shown and
the explanation text shown. -/
structure ExplainOutcome where
  explainCalled : Bool
  error : String
  explanation : String
deriving DecidableEq, Repr

/-- Literal error shown by handleExplain for an empty trimmed term. -/
def explainEmptyTermError : String := "Please enter a medical term to explain."

/-- Literal error shown by handleExplain when the validity call returns false. -/
def explainInvalidTermError : String :=
  "âš ï¸ The input you provided is not recognized as a valid medical term. Please enter a valid term or code."

/-- The handleExplain handler of the medical term explainer component,
embedded over its inputs: the term, the explanation currently displayed, the
outcome of the validity call (none models the call throwing with the given
message, handled by the catch branch) and the outcome of the explain call. -/
def handleExplain (term prevExplanation : String) (validation : Option Bool)
    (thrownMsg : String) (explainOutcome : Except String String) : ExplainOutcome :=
  if jsTrim term = "" then
    { explainCalled := false, error := explainEmptyTermError,
      explanation := prevExplanation }
  else
    match validation with
    | none =>
      { explainCalled := false, error := thrownMsg, explanation := "" }
    | some false =>
      { explainCalled := false, error := explainInvalidTermError, explanation := "" }
    | some true =>
      match explainOutcome with
      | Except.error msg => { explainCalled := true, error := msg, explanation := "" }
      | Except.ok r => { explainCalled := true, error := "", explanation := r }

/-- Observable outcome of one addDrug run of DrugInteraction.tsx: the
medication collection, the error text shown and whether the validation
network call was issued. -/
structure AddDrugOutcome where
  drugs : List String
  error : String
  validationCalled : Bool
deriving DecidableEq, Repr

/-- Literal duplicate error of DrugInteraction.addDrug. -/
def dupError : String := "This medication has already been added."

/-- Literal invalid-name error of DrugInteraction.addDrug. -/
def invalidMedError : String := "âš ï¸ Invalid input. Please enter a valid medication name."

/-- Literal error of the catch branch of DrugInteraction.addDrug. -/
def medValidationFailError : String := "Error validating medication name. Please try again."

/-- The addDrug handler of DrugInteraction.tsx, embedded over its inputs: the
current collection, the error currently displayed, the typed text and the
outcome of validateMedicationName (none models the call throwing). The empty
and duplicate guards return synchronously before the network call. -/
def addDrug (drugs : List String) (prevError : String) (currentDrug : String)
    (validation : Option Bool) : AddDrugOutcome :=
  let drugName := jsTrim currentDrug
  if drugName = "" then
    { drugs := drugs, error := prevError, validationCalled := false }
  else if drugs.contains drugName then
    { drugs := drugs, error := dupError, validationCalled := false }
  else
    match validation with
    | none =>
      { drugs := drugs, error := medValidationFailError, validationCalled := true }
    | some false =>
      { drugs := drugs, error := invalidMedError, validationCalled := true }
    | some true =>
      { drugs := drugs ++ [drugName], error := "", validationCalled := true }

example : (addDrug [] "" "Aspirin" (some true)).drugs = ["Aspirin"] := by decide
example : addDrug ["Aspirin"] "" "Aspirin" (some true)
    = { drugs := ["Aspirin"], error := dupError, validationCalled := false } := by decide
example : (addDrug ["Aspirin"] "" "aspirin" (some true)).drugs
    = ["Aspirin", "aspirin"] := by decide
example : (handleExplain "MRI" "" none "Network error" (Except.ok "x")).explainCalled
    = false := by decide
example : validateUploadedImage "" none = "" := by rfl
example : (handleAnalyzeMedicine true "" (some { isValid := false, message := "No" }) false).analyzeCalled = false := by decide

/-- Finding a message after a map that does not change the search predicate
is finding first and mapping after. -/
theorem find?_map_of_pred (f : Message → Message) (p : Message → Bool)
    (hf : ∀ m, p (f m) = p m) :
    ∀ msgs : List Message, (msgs.map f).find? p = (msgs.find? p).map f
  | [] => rfl
  | m :: ms => by
    by_cases h : p m = true
    · rw [List.map_cons, List.find?_cons_of_pos _ (by rw [hf]; exact h),
        List.find?_cons_of_pos _ h, Option.map_some']
    · rw [List.map_cons, List.find?_cons_of_neg _ (by rw [hf]; exact h),
        List.find?_cons_of_neg _ h, find?_map_of_pred f p hf ms]

/-- Effect of one chunk application on the tracked streaming message. -/
theorem msgById_applyChunk (aiId : Nat) (c : String) (msgs : List Message) :
    msgById (applyChunk aiId c msgs) aiId
      = (msgById msgs aiId).map
          (fun m => { m with content := c, isStreaming := true }) := by
  unfold msgById applyChunk
  rw [find?_map_of_pred]
  · cases hfind : msgs.find? (fun m => m.id == aiId) with
    | none => rfl
    | some m =>
      have hid' : m.id = aiId := by
        have hb := List.find?_some hfind
        simpa using hb
      simp [hid']
  · intro m
    by_cases h : m.id = aiId <;> simp [h]

/-- Effect of the completion step on the tracked streaming message. -/
theorem msgById_finishStream (aiId : Nat) (msgs : List Message) :
    msgById (finishStream aiId msgs) aiId
      = (msgById msgs aiId).map (fun m => { m with isStreaming := false }) := by
  unfold msgById finishStream
  rw [find?_map_of_pred]
  · cases hfind : msgs.find? (fun m => m.id == aiId) with
    | none => rfl
    | some m =>
      have hid' : m.id = aiId := by
        have hb := List.find?_some hfind
        simpa using hb
      simp [hid']
  · intro m
    by_cases h : m.id = aiId <;> simp [h]

/-- Effect of the cancellation rewrite on the tracked message. -/
theorem msgById_cancelMessages (msgs : List Message) (aiId : Nat) :
    msgById (cancelMessages msgs) aiId
      = (msgById msgs aiId).map (fun m =>
          if m.isStreaming then
            { m with
              content := (if m.content = "" then cancelNotice else m.content),
              isStreaming := false }
          else m) := by
  unfold msgById cancelMessages
  rw [find?_map_of_pred]
  intro m
  by_cases h : m.isStreaming <;> simp [h]

/-- Accumulator value after the streaming loop: the concatenation of all
chunks in arrival order, appended to the starting accumulator. -/
theorem runChunks_fst (aiId : Nat) (cs : List String) :
    ∀ (acc : String) (msgs : List Message),
      (runChunks aiId acc msgs cs).1 = acc ++ concatChunks cs := by
  induction cs with
  | nil =>
    intro acc msgs
    simp [runChunks, concatChunks, String.append_empty]
  | cons c cs ih =>
    intro acc msgs
    simp only [runChunks, concatChunks]
    rw [ih, String.append_assoc]

/-- Tracked message after the streaming loop: untouched for an empty chunk
list, otherwise carrying the full accumulated content with isStreaming true. -/
theorem runChunks_msgById (aiId : Nat) (cs : List String) :
    ∀ (acc : String) (msgs : List Message) (m : Message),
      msgById msgs aiId = some m →
      msgById (runChunks aiId acc msgs cs).2 aiId
        = some (if cs = [] then m
            else { m with content := acc ++ concatChunks cs, isStreaming := true }) := by
  induction cs with
  | nil =>
    intro acc msgs m hm
    simpa [runChunks] using hm
  | cons c cs ih =>
    intro acc msgs m hm
    simp only [runChunks]
    have h1 : msgById (applyChunk aiId (acc ++ c) msgs) aiId
        = some { m with content := acc ++ c, isStreaming := true } := by
      rw [msgById_applyChunk, hm]
      rfl
    have h2 := ih (acc ++ c) _ _ h1
    rw [h2]
    by_cases hcs : cs = []
    · subst hcs
      simp [concatChunks, String.append_empty]
    · simp only [if_neg hcs, if_neg (by simp : ¬(c :: cs = []))]
      simp [concatChunks, String.append_assoc]

/-- Appending a non-empty string never yields the empty string. -/
theorem append_right_ne_empty (s t : String) (ht : t ≠ "") : s ++ t ≠ "" := by
  intro h
  apply ht
  have hdata : s.data ++ t.data = [] := by
    have h2 := congrArg String.data h
    rwa [String.data_append] at h2
  have ht2 : t.data = [] := (List.append_eq_nil.mp hdata).2
  cases t with
  | mk d =>
    cases ht2
    rfl

/-- A submission attempt made while a request is in flight is rejected by the
guard of handleSubmit and changes neither the transcript nor isLoading. -/
theorem submitAttempt_inflight (s : ChatState) (e : SubmitEvent)
    (h : s.isLoading = true) :
    (submitAttempt s e).messages = s.messages ∧ (submitAttempt s e).isLoading = true := by
  simp [submitAttempt, handleSubmitStart, h]

/-- Any sequence of submission attempts made while a request is in flight
leaves the transcript unchanged and the session in flight. -/
theorem submitAll_inflight (es : List SubmitEvent) :
    ∀ s : ChatState, s.isLoading = true →
      (submitAll s es).messages = s.messages ∧ (submitAll s es).isLoading = true := by
  induction es with
  | nil => intro s h; exact ⟨rfl, h⟩
  | cons e es ih =>
    intro s h
    have h1 := submitAttempt_inflight s e h
    have h2 := ih (submitAttempt s e) h1.2
    exact ⟨h2.1.trans h1.1, h2.2⟩

/-- Claim C1: single-flight invariant. Starting from an idle session, the
first submission with non-empty trimmed text is accepted (it appends the user
message and the streaming placeholder and raises isLoading); every further
submission attempt issued while the request is in flight, whatever its text,
leaves the transcript and the loading flag unchanged, because the guard of
handleSubmit rejects it while isLoading holds. -/
theorem C1_single_flight (s : ChatState) (e : SubmitEvent) (es : List SubmitEvent)
    (hidle : s.isLoading = false) (hne : jsTrim e.text ≠ "") :
    (submitAttempt s e).isLoading = true ∧
    (submitAttempt s e).messages
      = s.messages ++ [mkUserMessage e.userId e.ts (jsTrim e.text),
          mkAssistantPlaceholder e.aiId e.ts] ∧
    (submitAll (submitAttempt s e) es).messages = (submitAttempt s e).messages ∧
    (submitAll (submitAttempt s e) es).isLoading = true ∧
    (∀ s2 : ChatState, ∀ e2 : SubmitEvent, s2.isLoading = true →
      (submitAttempt s2 e2).messages = s2.messages
        ∧ (submitAttempt s2 e2).isLoading = true) := by
  have hacc1 : (submitAttempt s e).isLoading = true := by
    simp [submitAttempt, handleSubmitStart, hidle, hne]
  have hacc2 : (submitAttempt s e).messages
      = s.messages ++ [mkUserMessage e.userId e.ts (jsTrim e.text),
          mkAssistantPlaceholder e.aiId e.ts] := by
    simp [submitAttempt, handleSubmitStart, hidle, hne]
  have hrest := submitAll_inflight es (submitAttempt s e) hacc1
  exact ⟨hacc1, hacc2, hrest.1, hrest.2, fun s2 e2 h2 => submitAttempt_inflight s2 e2 h2⟩

/-- Witness for C1 at a concrete idle state and concrete attempts. -/
theorem C1_single_flight_witness :
    (submitAttempt { messages := [], input := "", isLoading := false }
        { text := "hi", userId := 1, aiId := 2, ts := 0 }).isLoading = true ∧
    (submitAttempt { messages := [], input := "", isLoading := false }
        { text := "hi", userId := 1, aiId := 2, ts := 0 }).messages
      = [] ++ [mkUserMessage 1 0 (jsTrim "hi"), mkAssistantPlaceholder 2 0] ∧
    (submitAll (submitAttempt { messages := [], input := "", isLoading := false }
        { text := "hi", userId := 1, aiId := 2, ts := 0 })
        [{ text := "again", userId := 3, aiId := 4, ts := 5 },
         { text := "  ", userId := 6, aiId := 7, ts := 8 }]).messages
      = (submitAttempt { messages := [], input := "", isLoading := false }
          { text := "hi", userId := 1, aiId := 2, ts := 0 }).messages := by
  have h := C1_single_flight { messages := [], input := "", isLoading := false }
    { text := "hi", userId := 1, aiId := 2, ts := 0 }
    [{ text := "again", userId := 3, aiId := 4, ts := 5 },
     { text := "  ", userId := 6, aiId := 7, ts := 8 }]
    (by decide) (by decide)
  exact ⟨h.1, h.2.1, h.2.2.1⟩

/-- Claim C2: edit truncation. Editing the user message u2 of a transcript
u1, a1, u2, a2, u3 truncates the transcript to end at the edited message,
replaces its content with the new content, refreshes its timestamp, discards
a2 and u3, and appends exactly one new streaming assistant placeholder, with
the session put in flight for the regeneration. -/
theorem C2_edit_truncation (u1 a1 u2 a2 u3 : Message) (s : ChatState)
    (newContent : String) (now aiId : Nat)
    (hmsgs : s.messages = [u1, a1, u2, a2, u3])
    (_hu2 : u2.role = Role.user)
    (h1 : u1.id ≠ u2.id) (h2 : a1.id ≠ u2.id) :
    (handleSaveEditedMessage s u2.id newContent now aiId).messages
      = [u1, a1, { u2 with content := newContent, timestamp := now },
         mkAssistantPlaceholder aiId now] ∧
    (mkAssistantPlaceholder aiId now).role = Role.assistant ∧
    (mkAssistantPlaceholder aiId now).isStreaming = true ∧
    (handleSaveEditedMessage s u2.id newContent now aiId).isLoading = true := by
  refine ⟨?_, rfl, rfl, rfl⟩
  simp [handleSaveEditedMessage, editTruncate, findIndexById, h1, h2, hmsgs, List.set]

/-- Witness for C2 at the concrete five-message transcript. -/
theorem C2_edit_truncation_witness :
    (handleSaveEditedMessage
        { messages := [exU1, exA1, exU2, exA2, exU3], input := "", isLoading := false }
        exU2.id "edited" 99 42).messages
      = [exU1, exA1, { exU2 with content := "edited", timestamp := 99 },
         mkAssistantPlaceholder 42 99] ∧
    (handleSaveEditedMessage
        { messages := [exU1, exA1, exU2, exA2, exU3], input := "", isLoading := false }
        exU2.id "edited" 99 42).isLoading = true := by
  have h := C2_edit_truncation exU1 exA1 exU2 exA2 exU3
    { messages := [exU1, exA1, exU2, exA2, exU3], input := "", isLoading := false }
    "edited" 99 42 rfl rfl (by decide) (by decide)
  exact ⟨h.1, h.2.2.2⟩

/-- Claim C3, settled against the code: the conversation context that
handleSaveEditedMessage passes to the streaming call is the pre-edit
transcript filtered only by the edited id, so for the transcript
u1, a1, u2, a2, u3 with u2 edited it equals u1, a1, a2, u3 and still contains
the discarded messages a2 and u3, while the truncated history demanded by the
claim and by the code comment above the call is u1, a1. -/
theorem C3_edit_context_bug :
    conversationHistory [exU1, exA1, exU2, exA2, exU3] exU2.id
      = [exU1, exA1, exA2, exU3] ∧
    truncatedHistorySpec [exU1, exA1, exU2, exA2, exU3] exU2.id = [exU1, exA1] ∧
    conversationHistory [exU1, exA1, exU2, exA2, exU3] exU2.id
      ≠ truncatedHistorySpec [exU1, exA1, exU2, exA2, exU3] exU2.id ∧
    exA2 ∈ conversationHistory [exU1, exA1, exU2, exA2, exU3] exU2.id ∧
    exU3 ∈ conversationHistory [exU1, exA1, exU2, exA2, exU3] exU2.id := by
  decide

/-- State of the chat session after a streaming run that receives the first
n chunks of cs and is then cancelled. Per the spec model of the missing
transport module, no chunk is delivered after the cancel, so this is the
final state of the cancelled request. -/
def cancelledRun (s : ChatState) (aiId : Nat) (cs : List String) (n : Nat) : ChatState :=
  handleCancel { s with messages := (runChunks aiId "" s.messages (cs.take n)).2 }

/-- Claim C4: cancellation finality. After cancel, isLoading is cleared, the
in-progress assistant message keeps the partial content accumulated so far
(or carries the literal cancellation marker when no content was accumulated)
with its streaming flag false, the post-cancel chunk list delivers nothing
and leaves the state untouched, and a later completion step cannot change the
message or flip its streaming flag back. -/
theorem C4_cancellation_finality (s : ChatState) (aiId : Nat) (m : Message)
    (cs : List String) (n : Nat)
    (hm : msgById s.messages aiId = some m)
    (hstr : m.isStreaming = true) (hc : m.content = "") :
    (cancelledRun s aiId cs n).isLoading = false ∧
    msgById (cancelledRun s aiId cs n).messages aiId
      = some { m with
          content := (if concatChunks (cs.take n) = "" then cancelNotice
            else concatChunks (cs.take n)),
          isStreaming := false } ∧
    runChunks aiId (concatChunks (cs.take n)) (cancelledRun s aiId cs n).messages
        chunksAfterCancel
      = (concatChunks (cs.take n), (cancelledRun s aiId cs n).messages) ∧
    msgById (finishStream aiId (cancelledRun s aiId cs n).messages) aiId
      = msgById (cancelledRun s aiId cs n).messages aiId := by
  have hrun := runChunks_msgById aiId (cs.take n) "" s.messages m hm
  have hcm : msgById (cancelledRun s aiId cs n).messages aiId
      = some { m with
          content := (if concatChunks (cs.take n) = "" then cancelNotice
            else concatChunks (cs.take n)),
          isStreaming := false } := by
    show msgById (cancelMessages (runChunks aiId "" s.messages (cs.take n)).2) aiId = _
    rw [msgById_cancelMessages, hrun]
    by_cases ht : cs.take n = []
    · rw [if_pos ht, ht]
      simp [concatChunks, hstr, hc]
    · rw [if_neg ht]
      simp [String.empty_append]
  refine ⟨rfl, hcm, rfl, ?_⟩
  rw [msgById_finishStream, hcm]
  rfl

/-- Witness for C4 at a concrete in-flight state: two chunks arrive, then the
request is cancelled after the first one. -/
theorem C4_cancellation_finality_witness :
    (cancelledRun { messages := [mkAssistantPlaceholder 7 0], input := "", isLoading := true }
        7 ["Hel", "lo"] 1).isLoading = false ∧
    msgById (cancelledRun
        { messages := [mkAssistantPlaceholder 7 0], input := "", isLoading := true }
        7 ["Hel", "lo"] 1).messages 7
      = some { mkAssistantPlaceholder 7 0 with
          content := (if concatChunks (["Hel", "lo"].take 1) = "" then cancelNotice
            else concatChunks (["Hel", "lo"].take 1)),
          isStreaming := false } ∧
    concatChunks (["Hel", "lo"].take 1) = "Hel" := by
  have h := C4_cancellation_finality
    { messages := [mkAssistantPlaceholder 7 0], input := "", isLoading := true }
    7 (mkAssistantPlaceholder 7 0) ["Hel", "lo"] 1 rfl rfl rfl
  exact ⟨h.1, h.2.1, by decide⟩

/-- Claim C5: streaming accumulation. After each chunk of the sequence, the
active assistant message holds exactly the concatenation of the chunks
received so far, in arrival order, with its streaming flag true; when the
sequence ends normally the flag turns false and the content is the full
concatenation. -/
theorem C5_streaming_accumulation (msgs : List Message) (aiId : Nat) (m : Message)
    (cs : List String)
    (hm : msgById msgs aiId = some m) (hc : m.content = "") :
    (∀ k : Nat, 1 ≤ k → k ≤ cs.length →
      msgById (runChunks aiId "" msgs (cs.take k)).2 aiId
        = some { m with content := concatChunks (cs.take k), isStreaming := true }) ∧
    msgById (finishStream aiId (runChunks aiId "" msgs cs).2) aiId
      = some { m with content := concatChunks cs, isStreaming := false } := by
  constructor
  · intro k hk1 hk2
    have ht : cs.take k ≠ [] := by
      intro h
      have hlen := congrArg List.length h
      rw [List.length_take, List.length_nil] at hlen
      have hmin := Nat.min_eq_zero_iff.mp hlen
      rcases hmin with h0 | h0
      · omega
      · rw [h0] at hk2
        omega
    have hrun := runChunks_msgById aiId (cs.take k) "" msgs m hm
    rw [if_neg ht] at hrun
    rw [hrun, String.empty_append]
  · have hrun := runChunks_msgById aiId cs "" msgs m hm
    rw [msgById_finishStream, hrun]
    by_cases hcs : cs = []
    · rw [if_pos hcs, hcs]
      simp only [concatChunks, Option.map_some']
      rw [← hc]
    · rw [if_neg hcs]
      simp [String.empty_append]

/-- Witness for C5 at the chunk sequence of the claim. -/
theorem C5_streaming_accumulation_witness :
    concatChunks (["Hel", "lo, ", "world"].take 1) = "Hel" ∧
    concatChunks (["Hel", "lo, ", "world"].take 2) = "Hello, " ∧
    concatChunks ["Hel", "lo, ", "world"] = "Hello, world" ∧
    msgById (runChunks 7 "" [mkAssistantPlaceholder 7 0]
        (["Hel", "lo, ", "world"].take 2)).2 7
      = some { mkAssistantPlaceholder 7 0 with
          content := concatChunks (["Hel", "lo, ", "world"].take 2),
          isStreaming := true } ∧
    msgById (finishStream 7 (runChunks 7 "" [mkAssistantPlaceholder 7 0]
        ["Hel", "lo, ", "world"]).2) 7
      = some { mkAssistantPlaceholder 7 0 with
          content := concatChunks ["Hel", "lo, ", "world"],
          isStreaming := false } := by
  have h := C5_streaming_accumulation [mkAssistantPlaceholder 7 0] 7
    (mkAssistantPlaceholder 7 0) ["Hel", "lo, ", "world"] rfl rfl
  exact ⟨by decide, by decide, by decide, h.1 2 (by decide) (by decide), h.2⟩

/-- Claim C8: stream failure replacement. When the streaming call rejects,
the partially-created assistant message is removed entirely from the
transcript, a fresh assistant message with the generic failure notice is
appended in its place, isLoading returns to false, and a next submission with
non-empty trimmed text is accepted again. -/
theorem C8_stream_failure_replacement (s : ChatState) (aiId errId ts : Nat)
    (hne : errId ≠ aiId) :
    (failStream s aiId errId ts).isLoading = false ∧
    (∀ m ∈ (failStream s aiId errId ts).messages, m.id ≠ aiId) ∧
    (failStream s aiId errId ts).messages
      = s.messages.filter (fun m => m.id != aiId) ++ [errorMessage errId ts] ∧
    (errorMessage errId ts).role = Role.assistant ∧
    (errorMessage errId ts).content = chatErrorNotice ∧
    (errorMessage errId ts).isStreaming = false ∧
    (∀ e : SubmitEvent, jsTrim e.text ≠ "" →
      (submitAttempt (failStream s aiId errId ts) e).isLoading = true ∧
      (submitAttempt (failStream s aiId errId ts) e).messages
        = (failStream s aiId errId ts).messages
          ++ [mkUserMessage e.userId e.ts (jsTrim e.text),
              mkAssistantPlaceholder e.aiId e.ts]) := by
  refine ⟨rfl, ?_, rfl, rfl, rfl, rfl, ?_⟩
  · intro m hm
    rcases List.mem_append.mp hm with h | h
    · have hp := List.of_mem_filter h
      simpa using hp
    · simp only [List.mem_singleton] at h
      subst h
      simpa [errorMessage] using hne
  · intro e he
    constructor
    · simp [submitAttempt, handleSubmitStart, he, failStream]
    · simp [submitAttempt, handleSubmitStart, he, failStream]

/-- Concrete mid-stream chat state: one user message and the streaming
placeholder carrying partial content. -/
def exMidStreamState : ChatState :=
  { messages := [mkUserMessage 1 0 "q", { mkAssistantPlaceholder 7 0 with content := "par" }],
    input := "",
    isLoading := true }

/-- Witness for C8 at a concrete mid-stream state. -/
theorem C8_stream_failure_replacement_witness :
    (failStream exMidStreamState 7 9 1).isLoading = false ∧
    (failStream exMidStreamState 7 9 1).messages
      = exMidStreamState.messages.filter (fun m => m.id != 7) ++ [errorMessage 9 1] ∧
    (submitAttempt (failStream exMidStreamState 7 9 1)
        { text := "next", userId := 11, aiId := 12, ts := 2 }).isLoading = true := by
  have h := C8_stream_failure_replacement exMidStreamState 7 9 1 (by decide)
  exact ⟨h.1, h.2.2.1,
    (h.2.2.2.2.2.2 { text := "next", userId := 11, aiId := 12, ts := 2 } (by decide)).1⟩

/-- Claim C6: validation fail-closed at the final checkpoint. Whenever the
final validity check returns isValid false, the structured analysis call is
not issued in either analyzer, whatever the image and warning state, and on
the reachable path the user sees the validation message extended with the
non-empty rejection suffix listing the accepted input categories. -/
theorem C6_validation_fail_closed (hasImage : Bool) (warning : String)
    (v : ValidationResult) (af : Bool) (hv : v.isValid = false) :
    (handleAnalyzeMedicine hasImage warning (some v) af).analyzeCalled = false ∧
    (handleAnalyzeMedicalImage hasImage warning (some v) af).analyzeCalled = false ∧
    (handleAnalyzeMedicine true "" (some v) af).error = v.message ++ medRejectSuffix ∧
    (handleAnalyzeMedicine true "" (some v) af).error ≠ "" ∧
    (handleAnalyzeMedicalImage true "" (some v) af).error = v.message ++ miRejectSuffix ∧
    (handleAnalyzeMedicalImage true "" (some v) af).error ≠ "" := by
  have hmed : (handleAnalyzeMedicine true "" (some v) af).error
      = v.message ++ medRejectSuffix := by
    simp [handleAnalyzeMedicine, hv]
  have hmi : (handleAnalyzeMedicalImage true "" (some v) af).error
      = v.message ++ miRejectSuffix := by
    simp [handleAnalyzeMedicalImage, hv]
  refine ⟨?_, ?_, hmed, ?_, hmi, ?_⟩
  · cases hasImage with
    | false => simp [handleAnalyzeMedicine]
    | true =>
      by_cases hw : warning = ""
      · simp [handleAnalyzeMedicine, hw, hv]
      · simp [handleAnalyzeMedicine, hw]
  · cases hasImage with
    | false => simp [handleAnalyzeMedicalImage]
    | true =>
      by_cases hw : warning = ""
      · simp [handleAnalyzeMedicalImage, hw, hv]
      · simp [handleAnalyzeMedicalImage, hw]
  · rw [hmed]
    exact append_right_ne_empty _ _ (by decide)
  · rw [hmi]
    exact append_right_ne_empty _ _ (by decide)

/-- Witness for C6 at a concrete rejecting validation result. -/
theorem C6_validation_fail_closed_witness :
    (handleAnalyzeMedicine true ""
        (some { isValid := false, message := "Not a medicine" }) false).analyzeCalled
      = false ∧
    (handleAnalyzeMedicine true ""
        (some { isValid := false, message := "Not a medicine" }) false).error
      = "Not a medicine" ++ medRejectSuffix ∧
    (handleAnalyzeMedicalImage true ""
        (some { isValid := false, message := "Not a medical image" }) false).analyzeCalled
      = false := by
  have h1 := C6_validation_fail_closed true ""
    { isValid := false, message := "Not a medicine" } false rfl
  have h2 := C6_validation_fail_closed true ""
    { isValid := false, message := "Not a medical image" } false rfl
  exact ⟨h1.1, h1.2.2.1, h2.2.1⟩

/-- Counterexample to claim C7 as stated: the claim covers every analyzer
feature using the validity gate and cites handleExplain of the medical term
explainer, but there a transport failure of the (single, hence first)
validity call is surfaced as a blocking error, the explanation is cleared and
the explain call is never issued, instead of the input being treated as
tentatively valid with the failure only logged. -/
theorem C7_fail_open_counterexample :
    (handleExplain "MRI" "" none "Network error" (Except.ok "scan")).explainCalled
      = false ∧
    (handleExplain "MRI" "" none "Network error" (Except.ok "scan")).error
      = "Network error" ∧
    (handleExplain "MRI" "" none "Network error" (Except.ok "scan")).explanation = "" ∧
    ¬ ((handleExplain "MRI" "" none "Network error" (Except.ok "scan")).explainCalled
          = true ∧
        (handleExplain "MRI" "" none "Network error" (Except.ok "scan")).error = "") := by
  decide

/-- Claim C7 as amended: fail-open on a validation transport failure holds
exactly for the upload-time pre-check of the two image analyzers, where the
thrown error is only logged and the warning stays clear, leaving the path to
analysis open; in the text features the same failure is blocking: the term
explainer surfaces the thrown message and never calls the explain step, and
the drug-interaction add surfaces its transport error and leaves the
collection unchanged. -/
theorem C7_fail_open_scope (vr : ValidationResult) (term tmsg prevErr cand : String)
    (drugs : List String) (eo : Except String String)
    (hvr : vr.isValid = true) (ht : jsTrim term ≠ "")
    (hcand : jsTrim cand ≠ "") (hmem : drugs.contains (jsTrim cand) = false) :
    validateUploadedImage "" none = "" ∧
    (handleAnalyzeMedicine true (validateUploadedImage "" none)
        (some vr) false).analyzeCalled = true ∧
    (handleAnalyzeMedicalImage true (validateUploadedImage "" none)
        (some vr) false).analyzeCalled = true ∧
    (handleExplain term "" none tmsg eo).explainCalled = false ∧
    (handleExplain term "" none tmsg eo).error = tmsg ∧
    (addDrug drugs prevErr cand none).drugs = drugs ∧
    (addDrug drugs prevErr cand none).error = medValidationFailError := by
  have hmem' : jsTrim cand ∉ drugs := by simpa using hmem
  refine ⟨rfl, ?_, ?_, ?_, ?_, ?_, ?_⟩
  · simp [handleAnalyzeMedicine, validateUploadedImage, hvr]
  · simp [handleAnalyzeMedicalImage, validateUploadedImage, hvr]
  · simp [handleExplain, ht]
  · simp [handleExplain, ht]
  · simp [addDrug, hcand, hmem']
  · simp [addDrug, hcand, hmem']

/-- Witness for the amended C7 at concrete inputs. -/
theorem C7_fail_open_scope_witness :
    validateUploadedImage "" none = "" ∧
    (handleAnalyzeMedicine true (validateUploadedImage "" none)
        (some { isValid := true, message := "ok" }) false).analyzeCalled = true ∧
    (handleExplain "MRI" "" none "boom" (Except.ok "scan")).explainCalled = false ∧
    (addDrug ["Aspirin"] "" "Ibuprofen" none).drugs = ["Aspirin"] := by
  have h := C7_fail_open_scope { isValid := true, message := "ok" }
    "MRI" "boom" "" "Ibuprofen" ["Aspirin"] (Except.ok "scan")
    rfl (by decide) (by decide) (by decide)
  exact ⟨h.1, h.2.1, h.2.2.2.1, h.2.2.2.2.2.1⟩

/-- Claim C9: duplicate rejection. Adding Aspirin to an empty collection with
a valid validation result yields exactly one entry; a second add of the same
literal is rejected synchronously with the duplicate error before the
validation call, whatever that call would have returned, and the collection
is unchanged. -/
theorem C9_duplicate_rejection :
    (addDrug [] "" "Aspirin" (some true)).drugs = ["Aspirin"] ∧
    (addDrug [] "" "Aspirin" (some true)).validationCalled = true ∧
    (∀ v : Option Bool,
      addDrug ["Aspirin"] "" "Aspirin" v
        = { drugs := ["Aspirin"], error := dupError, validationCalled := false }) := by
  refine ⟨by decide, by decide, ?_⟩
  intro v
  rcases v with _ | b
  · decide
  · cases b <;> decide

/-- Claim C10: the duplicate check of addDrug is exact case-sensitive string
equality on the trimmed input. A candidate whose trimmed text is not literally
contained in the collection is never rejected as a duplicate: the validation
call is issued and, when it validates, the candidate is appended as a new
entry; in particular aspirin is added as a second entry after Aspirin. -/
theorem C10_case_sensitive_duplicate (drugs : List String) (prevErr cand : String)
    (hcand : jsTrim cand ≠ "") (hmem : drugs.contains (jsTrim cand) = false) :
    (addDrug drugs prevErr cand (some true)).drugs = drugs ++ [jsTrim cand] ∧
    (addDrug drugs prevErr cand (some true)).error = "" ∧
    (addDrug drugs prevErr cand (some true)).validationCalled = true ∧
    (addDrug drugs prevErr cand (some false)).drugs = drugs ∧
    (addDrug drugs prevErr cand (some false)).validationCalled = true ∧
    (addDrug ["Aspirin"] "" "aspirin" (some true)).drugs
      = ["Aspirin", "aspirin"] := by
  have hmem' : jsTrim cand ∉ drugs := by simpa using hmem
  refine ⟨?_, ?_, ?_, ?_, ?_, by decide⟩ <;> simp [addDrug, hcand, hmem']

/-- Witness for C10 at the case-differing candidate of the claim. -/
theorem C10_case_sensitive_duplicate_witness :
    (addDrug ["Aspirin"] "" "aspirin" (some true)).drugs = ["Aspirin"] ++ [jsTrim "aspirin"] ∧
    (addDrug ["Aspirin"] "" "aspirin" (some true)).validationCalled = true := by
  have h := C10_case_sensitive_duplicate ["Aspirin"] "" "aspirin"
    (by decide) (by decide)
  exact ⟨h.1, h.2.2.1⟩
